import Mathlib

/-!
Shallow embedding of src/src/app/services/token-price.service.ts
(TokenPriceService of the neurolink-swap repository).

Modelling conventions:
* ethers BigNumber values are modelled as Int (arbitrary-precision signed
  integers).  BigNumber.div truncates toward zero and throws on a zero
  divisor; we model it as bnDiv returning Option Int (none = thrown error).
* An rxjs Observable that either emits one value or errors is modelled as
  Option Int (some v = emitted value, none = errored).  catchError on a
  failed stream switches to the fallback, which is an Option.getD/match.
* The external adapters (CoinGeckoService.getUSDPrice composed with
  parseUnits(String(price), 8), the TokenHelper contract call obtained via
  Web3Service, the OneSplitService.getExpectedReturn quote, and the
  ChainLink latestAnswer call) are behaviours supplied in an Env record,
  as functions of the exact arguments the service passes them.
* To settle the claims about which on-chain source gets invoked, the
  embedded operations also return the list of adapter calls their
  subscription performs (cold observables: a stage that is never
  subscribed performs no call, matching rxjs semantics).
-/

/-- Hardcoded DAI address constant from the source (mixed-case checksum). -/
def DAI_ADDRESS : String := "0x6B175474E89094C44Da98b954EedeAC495271d0F"

/-- Hardcoded SAI address constant from the source (lower-case). -/
def SAI_ADDRESS : String := "0x89d24a6b4ccb1b6faa2625fe562bdd9a23260359"

/-- zeroValueBN from app/utils: the zero BigNumber sentinel. -/
def zeroValueBN : Int := 0

/-- Shorthand for bigNumberify(10).pow(n). -/
def pow10 (n : Nat) : Int := 10 ^ n

/-- BigNumber.mul: plain integer multiplication. -/
def bnMul (a b : Int) : Int := a * b

/-- BigNumber.div: truncating (toward-zero) division; throws on zero divisor,
modelled as none. -/
def bnDiv (a b : Int) : Option Int :=
  if b = 0 then none else some (Int.tdiv a b)

/-- A blockTag as passed to a contract call: an explicit block number or
the string tag latest. -/
inductive BlockTag where
  | latest : BlockTag
  | number : Nat → BlockTag
deriving DecidableEq, Repr

/-- JS expression blockNumber or-else latest: undefined and the falsy 0 both
collapse to the latest tag. -/
def orLatest : Option Nat → BlockTag
  | none => BlockTag.latest
  | some 0 => BlockTag.latest
  | some (n + 1) => BlockTag.number (n + 1)

/-- Which external adapter a subscription invoked. -/
inductive Call where
  | offChain : Call
  | helper : Call
  | aggregator : Call
  | feed : Call
deriving DecidableEq, Repr

/-- Behaviours of the four external price sources, as functions of the exact
arguments the service hands them.
offChain: CoinGeckoService.getUSDPrice(tokenAddress) composed with
  parseUnits(String(price), 8); some p is the successful scale-8 integer
  result of that composition, none any failure of fetch or conversion.
helper: the TokenHelper getTokenUSDValue(tokenAddress, nominator,
  oneSplitAddress).call(null, blockTag) contract read, including the
  Web3Service instance lookup; none is any failure.
aggregator: OneSplitService.getExpectedReturn(fromToken, toToken, amount,
  parts, flags, oneSplitAddress, blockNumber), projected to its
  returnAmount field; none is any failure.
feedAttempts: the ChainLink latestAnswer() subscription attempt number i
  (the pipeline before retry(5)); each resubscription is a fresh attempt. -/
structure Env where
  offChain : String → Option Int
  helper : String → Int → String → BlockTag → Option Int
  aggregator : String → String → Int → Int → Int → String → Option Nat → Option Int
  feedAttempts : Nat → Option Int

/-- rxjs retry semantics: try the attempt at index start; while it errors and
retries remain in the budget, resubscribe at the next index. -/
def retryFrom (attempts : Nat → Option Int) : Nat → Nat → Option Int
  | start, 0 => attempts start
  | start, budget + 1 =>
    match attempts start with
    | some v => some v
    | none => retryFrom attempts (start + 1) budget

/-- The daiUsdPriceBN$ field: the ChainLink latestAnswer call piped through
retry(5) and shareReplay, so at most 6 consecutive attempts and a single
shared result for every subscriber. -/
def daiUsdPriceBN (env : Env) : Option Int :=
  retryFrom env.feedAttempts 0 5

/-- getTokenPriceFromHelper: one contract read through the TokenHelper
instance; no catchError, so the adapter outcome is propagated as is. -/
def getTokenPriceFromHelper (env : Env) (tokenAddress : String)
    (tokenDecimals : Nat) (blockNumber : Option Nat) (oneSplitAddress : String) :
    Option Int × List Call :=
  (env.helper tokenAddress (pow10 tokenDecimals) oneSplitAddress
    (orLatest blockNumber), [Call.helper])

/-- The map body of getTokenOneSplitPrice: nominator.mul(precision)
.mul(daiUsdPriceBN).div(returnAmount).div(nominator2), where
nominator = 10^tokenDecimals, precision = 1e8, nominator2 = 10^8.
A throwing division (zero divisor) errors the stream. -/
def oneSplitImplied (tokenDecimals : Nat) (daiUsd returnAmount : Int) :
    Option Int :=
  let nominator := pow10 tokenDecimals
  let nominator2 := pow10 8
  let precision : Int := 100000000
  match bnDiv (bnMul (bnMul nominator precision) daiUsd) returnAmount with
  | none => none
  | some q => bnDiv q nominator2

/-- getTokenOneSplitPrice parameterised by the (shared) reference-feed
result it combines with the aggregator quote. -/
def getTokenOneSplitPriceWithFeed (feed : Option Int) (env : Env)
    (tokenAddress : String) (tokenDecimals : Nat) (blockNumber : Option Nat)
    (oneSplitAddress : String) : Option Int × List Call :=
  if tokenAddress = DAI_ADDRESS ∨ tokenAddress = SAI_ADDRESS then
    (some (pow10 8), [])
  else
    let agg := env.aggregator DAI_ADDRESS tokenAddress (pow10 18) 10
      zeroValueBN oneSplitAddress blockNumber
    let computed : Option Int :=
      match agg, feed with
      | some r, some f => oneSplitImplied tokenDecimals f r
      | _, _ => none
    (some (computed.getD zeroValueBN), [Call.aggregator, Call.feed])

/-- getTokenOneSplitPrice: constant 10^8 for the two hardcoded stablecoin
addresses; otherwise combineLatest of the OneSplit quote and the shared
daiUsdPriceBN$ feed, mapped through the implied-price formula, with
catchError degrading every failure to zeroValueBN. -/
def getTokenOneSplitPrice (env : Env) (tokenAddress : String)
    (tokenDecimals : Nat) (blockNumber : Option Nat) (oneSplitAddress : String) :
    Option Int × List Call :=
  getTokenOneSplitPriceWithFeed (daiUsdPriceBN env) env tokenAddress
    tokenDecimals blockNumber oneSplitAddress

/-- The onChainPrice$ pipeline local to getTokenPriceBN: helper read, zero
result converted to an error, every error caught by falling back to
getTokenOneSplitPrice. -/
def onChainPrice (env : Env) (tokenAddress : String) (tokenDecimals : Nat)
    (blockNumber : Option Nat) (oneSplitAddress : String) :
    Option Int × List Call :=
  match getTokenPriceFromHelper env tokenAddress tokenDecimals blockNumber
      oneSplitAddress with
  | (some price, tr) =>
    if price = 0 then
      let r := getTokenOneSplitPrice env tokenAddress tokenDecimals blockNumber
        oneSplitAddress
      (r.1, tr ++ r.2)
    else (some price, tr)
  | (none, tr) =>
    let r := getTokenOneSplitPrice env tokenAddress tokenDecimals blockNumber
      oneSplitAddress
    (r.1, tr ++ r.2)

/-- getTokenPriceBN: when useOffChain, the CoinGecko price (already converted
to scale 8) with catchError falling back to onChainPrice$; otherwise
onChainPrice$ directly. -/
def getTokenPriceBN (env : Env) (tokenAddress : String) (tokenDecimals : Nat)
    (blockNumber : Option Nat) (oneSplitAddress : String)
    (useOffChain : Bool := true) : Option Int × List Call :=
  if !useOffChain then
    onChainPrice env tokenAddress tokenDecimals blockNumber oneSplitAddress
  else
    match env.offChain tokenAddress with
    | some p => (some p, [Call.offChain])
    | none =>
      let r := onChainPrice env tokenAddress tokenDecimals blockNumber
        oneSplitAddress
      (r.1, Call.offChain :: r.2)

/-- A usdPriceCache$ entry: the RefreshingReplaySubject handle.  Its factory
closure captures the tokenPrice$ observable built from the arguments of the
call that created it, and its refresh interval is the literal 10000 ms.
The subject internals live in app/utils (outside src); the fields record
exactly what the service constructs it from. -/
structure CacheEntry where
  factoryToken : String
  factoryDecimals : Nat
  factoryBlock : Option Nat
  factoryRouter : String
  refreshInterval : Nat
deriving DecidableEq, Repr

/-- The usdPriceCache$ map: tokenAddress to its RefreshingReplaySubject. -/
abbrev UsdPriceCache := List (String × CacheEntry)

/-- getUsdTokenPrice: return the cached subject for the exact tokenAddress
key when present; otherwise build tokenPrice$ from the current arguments,
store a new RefreshingReplaySubject(factory, 10000) under the key and
return it. -/
def getUsdTokenPrice (cache : UsdPriceCache) (tokenAddress : String)
    (tokenDecimals : Nat) (blockNumber : Option Nat) (oneSplitAddress : String) :
    CacheEntry × UsdPriceCache :=
  match cache.lookup tokenAddress with
  | some subj => (subj, cache)
  | none =>
    let subj : CacheEntry :=
      ⟨tokenAddress, tokenDecimals, blockNumber, oneSplitAddress, 10000⟩
    (subj, (tokenAddress, subj) :: cache)

/-- The resolution pipeline a cache entry replays: getTokenPriceBN at the
arguments captured by its factory closure, with the default useOffChain. -/
def entryPipeline (env : Env) (e : CacheEntry) : Option Int × List Call :=
  getTokenPriceBN env e.factoryToken e.factoryDecimals e.factoryBlock
    e.factoryRouter true

/-! Concrete adapter environments used as test inputs. -/

/-- Every adapter fails (or the helper errors): CoinGecko unreachable, helper
contract call throwing, OneSplit quote throwing, ChainLink call throwing. -/
def envAllFail : Env :=
  { offChain := fun _ => none
    helper := fun _ _ _ _ => none
    aggregator := fun _ _ _ _ _ _ _ => none
    feedAttempts := fun _ => none }

/-- CoinGecko succeeds with 2.00 at scale 8; everything on-chain fails. -/
def envOffChainTwo : Env :=
  { offChain := fun _ => some (2 * pow10 8)
    helper := fun _ _ _ _ => none
    aggregator := fun _ _ _ _ _ _ _ => none
    feedAttempts := fun _ => none }

/-- CoinGecko fails; the helper contract answers 7.00 at scale 8. -/
def envHelperSeven : Env :=
  { offChain := fun _ => none
    helper := fun _ _ _ _ => some (7 * pow10 8)
    aggregator := fun _ _ _ _ _ _ _ => none
    feedAttempts := fun _ => none }

/-- CoinGecko fails, helper fails, OneSplit quotes returnAmount 5*10^17 for
a 10^18 DAI input, ChainLink reports 1.00 at scale 8. -/
def envImplied : Env :=
  { offChain := fun _ => none
    helper := fun _ _ _ _ => none
    aggregator := fun _ _ _ _ _ _ _ => some (5 * 10 ^ 17)
    feedAttempts := fun _ => some (pow10 8) }

/-- CoinGecko fails, helper answers 0, OneSplit quotes returnAmount 0,
ChainLink reports 1.00 at scale 8. -/
def envAggZero : Env :=
  { offChain := fun _ => none
    helper := fun _ _ _ _ => some 0
    aggregator := fun _ _ _ _ _ _ _ => some 0
    feedAttempts := fun _ => some (pow10 8) }

/-- The ChainLink subscription fails on attempts 0 to 4 and succeeds on the
fifth resubscription; the other adapters fail. -/
def envRetryFive : Env :=
  { offChain := fun _ => none
    helper := fun _ _ _ _ => none
    aggregator := fun _ _ _ _ _ _ _ => none
    feedAttempts := fun i => if i = 5 then some 777 else none }

/-- The DAI address in all-lower-case, differing from DAI_ADDRESS only in
letter case. -/
def daiLower : String := "0x6b175474e89094c44da98b954eedeac495271d0f"

/-! Helper lemmas shared by several claims. -/

theorem oneSplitPrice_isSome (env : Env) (token : String) (d : Nat)
    (b : Option Nat) (r : String) :
    ((getTokenOneSplitPrice env token d b r).1).isSome = true := by
  unfold getTokenOneSplitPrice getTokenOneSplitPriceWithFeed
  split <;> rfl

theorem onChainPrice_isSome (env : Env) (token : String) (d : Nat)
    (b : Option Nat) (r : String) :
    ((onChainPrice env token d b r).1).isSome = true := by
  unfold onChainPrice getTokenPriceFromHelper
  cases h : env.helper token (pow10 d) r (orLatest b) with
  | none => simpa using oneSplitPrice_isSome env token d b r
  | some price =>
    by_cases hp : price = 0
    · simpa [hp] using oneSplitPrice_isSome env token d b r
    · simp [hp]

theorem priceBN_isSome (env : Env) (token : String) (d : Nat)
    (b : Option Nat) (r : String) (u : Bool) :
    ((getTokenPriceBN env token d b r u).1).isSome = true := by
  unfold getTokenPriceBN
  cases u with
  | false => simpa using onChainPrice_isSome env token d b r
  | true =>
    cases h : env.offChain token with
    | none => simpa [h] using onChainPrice_isSome env token d b r
    | some p => simp [h]

/-! Claims C1, C2, C3: the fallback chain and the stablecoin special case. -/

/-- C1 (counterexample): with the default preferOffChain chain, a successful
off-chain fetch of 2.00 for the DAI address is returned as is, so the
resolution is not the constant 10^8 for every adapter behaviour. -/
theorem C1_cex :
    (getTokenPriceBN envOffChainTwo DAI_ADDRESS 18 none "router" true).1 =
      some (2 * pow10 8) ∧ (2 * pow10 8 : Int) ≠ pow10 8 :=
  ⟨rfl, by decide⟩

/-- C1 (amended): for a hardcoded stablecoin address, getTokenPriceBN with
the default preferOffChain returns exactly 10^8 for every behaviour of the
aggregator and reference-feed adapters, provided the chain reaches its last
stage: the off-chain fetch failed and the helper failed or returned zero. -/
theorem C1_stablecoin_constant (env : Env) (token : String) (d : Nat)
    (b : Option Nat) (r : String)
    (htok : token = DAI_ADDRESS ∨ token = SAI_ADDRESS)
    (hoff : env.offChain token = none)
    (hhelp : env.helper token (pow10 d) r (orLatest b) = none ∨
      env.helper token (pow10 d) r (orLatest b) = some 0) :
    (getTokenPriceBN env token d b r true).1 = some (pow10 8) := by
  have hone : (getTokenOneSplitPrice env token d b r).1 = some (pow10 8) := by
    unfold getTokenOneSplitPrice getTokenOneSplitPriceWithFeed
    rcases htok with h | h <;> simp [h]
  unfold getTokenPriceBN onChainPrice getTokenPriceFromHelper
  rw [hoff]
  rcases hhelp with h | h <;> rw [h] <;> simp [hone]

/-- C1 (witness): DAI with every adapter failing resolves to 10^8. -/
theorem C1_witness :
    (getTokenPriceBN envAllFail DAI_ADDRESS 18 none "router" true).1 =
      some (pow10 8) :=
  C1_stablecoin_constant envAllFail DAI_ADDRESS 18 none "router"
    (Or.inl rfl) rfl (Or.inl rfl)

/-- C2 (counterexample): off-chain failed and the token is the DAI address,
yet the helper is invoked and its non-zero answer 7.00 is returned instead
of the constant 10^8. -/
theorem C2_cex :
    getTokenPriceBN envHelperSeven DAI_ADDRESS 18 none "router" true =
      (some (7 * pow10 8), [Call.offChain, Call.helper]) ∧
    (7 * pow10 8 : Int) ≠ pow10 8 :=
  ⟨rfl, by decide⟩

/-- C2 (amended): when the off-chain source fails on a hardcoded stablecoin
address, the on-chain helper IS invoked (the special case sits in the last
chain stage, not before the helper); the aggregator is never invoked for
such a token, and only when the helper fails or returns zero does the chain
return the constant 10^8. -/
theorem C2_stablecoin_helper_invoked (env : Env) (token : String) (d : Nat)
    (b : Option Nat) (r : String)
    (htok : token = DAI_ADDRESS ∨ token = SAI_ADDRESS)
    (hoff : env.offChain token = none) :
    Call.helper ∈ (getTokenPriceBN env token d b r true).2 ∧
    Call.aggregator ∉ (getTokenPriceBN env token d b r true).2 ∧
    ((env.helper token (pow10 d) r (orLatest b) = none ∨
      env.helper token (pow10 d) r (orLatest b) = some 0) →
      (getTokenPriceBN env token d b r true).1 = some (pow10 8)) := by
  have hone : getTokenOneSplitPrice env token d b r = (some (pow10 8), []) := by
    unfold getTokenOneSplitPrice getTokenOneSplitPriceWithFeed
    rcases htok with h | h <;> simp [h]
  unfold getTokenPriceBN onChainPrice getTokenPriceFromHelper
  rw [hoff]
  cases hh : env.helper token (pow10 d) r (orLatest b) with
  | none => simp [hone]
  | some v =>
    by_cases hv : v = 0
    · subst hv
      simp [hone]
    · simp [hv, hone]

/-- C2 (witness): SAI with every adapter failing still invokes the helper. -/
theorem C2_witness :
    Call.helper ∈ (getTokenPriceBN envAllFail SAI_ADDRESS 18 none "router" true).2 :=
  (C2_stablecoin_helper_invoked envAllFail SAI_ADDRESS 18 none "router"
    (Or.inr rfl) rfl).1

/-- C3 (counterexample): off-chain failed, helper returned zero and the
aggregator quotes returnAmount 0, yet for the DAI address the result is the
constant 10^8, not the zero sentinel, so the third clause fails for the
stablecoin addresses. -/
theorem C3_cex :
    envAggZero.offChain DAI_ADDRESS = none ∧
    envAggZero.helper DAI_ADDRESS (pow10 18) "router" BlockTag.latest = some 0 ∧
    envAggZero.aggregator DAI_ADDRESS DAI_ADDRESS (pow10 18) 10 zeroValueBN
      "router" none = some 0 ∧
    (getTokenPriceBN envAggZero DAI_ADDRESS 18 none "router" true).1 =
      some (pow10 8) ∧
    some (pow10 8) ≠ some zeroValueBN :=
  ⟨rfl, rfl, rfl, rfl, by decide⟩

/-- C3 (amended): the chain short-circuits in order.  Off-chain success
returns that price with no on-chain call; off-chain failure plus a non-zero
helper answer returns it without invoking the aggregator; off-chain failure,
helper zero-or-failure and aggregator returnAmount 0 yield the zero
sentinel for every token other than the two hardcoded stablecoin addresses
(those return the constant 10^8 instead). -/
theorem C3_fallback_chain (env : Env) (token : String) (d : Nat)
    (b : Option Nat) (r : String) :
    (∀ p, env.offChain token = some p →
      getTokenPriceBN env token d b r true = (some p, [Call.offChain])) ∧
    (env.offChain token = none → ∀ v, v ≠ 0 →
      env.helper token (pow10 d) r (orLatest b) = some v →
      getTokenPriceBN env token d b r true =
        (some v, [Call.offChain, Call.helper])) ∧
    (token ≠ DAI_ADDRESS → token ≠ SAI_ADDRESS →
      env.offChain token = none →
      (env.helper token (pow10 d) r (orLatest b) = none ∨
        env.helper token (pow10 d) r (orLatest b) = some 0) →
      env.aggregator DAI_ADDRESS token (pow10 18) 10 zeroValueBN r b = some 0 →
      (getTokenPriceBN env token d b r true).1 = some zeroValueBN) := by
  refine ⟨?_, ?_, ?_⟩
  · intro p hp
    unfold getTokenPriceBN
    rw [hp]
    rfl
  · intro hoff v hv hh
    unfold getTokenPriceBN onChainPrice getTokenPriceFromHelper
    rw [hoff, hh]
    simp [hv]
  · intro hd hs hoff hh hagg
    have hone : (getTokenOneSplitPrice env token d b r).1 = some zeroValueBN := by
      unfold getTokenOneSplitPrice getTokenOneSplitPriceWithFeed
      rw [if_neg (not_or.mpr ⟨hd, hs⟩), hagg]
      cases hfeed : daiUsdPriceBN env with
      | none => simp
      | some f => simp [oneSplitImplied, bnDiv, zeroValueBN]
    unfold getTokenPriceBN onChainPrice getTokenPriceFromHelper
    rw [hoff]
    rcases hh with h | h <;> rw [h] <;> simp [hone]

/-- C3 (witness): off-chain success short-circuits with only the off-chain
call in the trace. -/
theorem C3_witness :
    getTokenPriceBN envOffChainTwo "0xabc" 18 none "router" true =
      (some (2 * pow10 8), [Call.offChain]) :=
  (C3_fallback_chain envOffChainTwo "0xabc" 18 none "router").1
    (2 * pow10 8) rfl

/-! Claims C4, C5, C8: the implied-price formula and error propagation. -/

/-- C4: for a non-stablecoin token, a successful aggregator quote with
non-zero returnAmount and a reference feed price f make
getTokenOneSplitPrice return 10^tokenDecimals * 10^8 * f, divided by
returnAmount and then by 10^8, both divisions truncating toward zero. -/
theorem C4_implied_price_formula (env : Env) (token : String) (d : Nat)
    (b : Option Nat) (r : String) (rv f : Int)
    (hd : token ≠ DAI_ADDRESS) (hs : token ≠ SAI_ADDRESS)
    (hagg : env.aggregator DAI_ADDRESS token (pow10 18) 10 zeroValueBN r b =
      some rv)
    (hrv : rv ≠ 0)
    (hfeed : daiUsdPriceBN env = some f) :
    (getTokenOneSplitPrice env token d b r).1 =
      some (Int.tdiv (Int.tdiv (pow10 d * pow10 8 * f) rv) (pow10 8)) := by
  unfold getTokenOneSplitPrice getTokenOneSplitPriceWithFeed
  rw [if_neg (not_or.mpr ⟨hd, hs⟩), hagg, hfeed]
  have h8 : (100000000 : Int) = pow10 8 := by norm_num [pow10]
  have h80 : pow10 8 ≠ 0 := by norm_num [pow10]
  simp [oneSplitImplied, bnMul, bnDiv, hrv, h8, h80]

/-- C4 (witness): decimals 18, returnAmount 5*10^17 for the 10^18 input,
reference price 10^8: the implied price is 2*10^8, i.e. 2.00 dollars. -/
theorem C4_witness :
    (getTokenOneSplitPrice envImplied "0xabc" 18 none "router").1 =
      some (2 * pow10 8) := by
  have h := C4_implied_price_formula envImplied "0xabc" 18 none "router"
    (5 * 10 ^ 17) (pow10 8) (by decide) (by decide) rfl (by decide) rfl
  rw [h]
  decide

/-- C5: getTokenOneSplitPrice always emits a value — for every token and
every behaviour of the aggregator and reference-feed adapters it yields
either the computed implied price or the zero sentinel, never a propagated
failure; the full getTokenPriceBN chain, for either value of useOffChain,
likewise always emits a value. -/
theorem C5_degrades_to_value (env : Env) (token : String) (d : Nat)
    (b : Option Nat) (r : String) (u : Bool) :
    (∃ v, (getTokenOneSplitPrice env token d b r).1 = some v) ∧
    (∃ w, (getTokenPriceBN env token d b r u).1 = some w) :=
  ⟨Option.isSome_iff_exists.mp (oneSplitPrice_isSome env token d b r),
   Option.isSome_iff_exists.mp (priceBN_isSome env token d b r u)⟩

/-- C8 (counterexample): a helper adapter failure surfaces directly to the
caller of the one-shot getTokenPriceFromHelper, with no cache involved, so
a first-resolution cache failure is not the only propagating failure. -/
theorem C8_cex :
    (getTokenPriceFromHelper envAllFail "0xabc" 18 none "router").1 = none :=
  rfl

/-- C8 (amended): getTokenPriceBN and getTokenOneSplitPrice never surface an
adapter failure; getTokenPriceFromHelper, however, propagates the helper
adapter outcome to its caller unchanged, so a helper failure is visible
through it on every call, not only on a first cached resolution. -/
theorem C8_propagation (env : Env) (token : String) (d : Nat)
    (b : Option Nat) (r : String) :
    (getTokenPriceFromHelper env token d b r).1 =
      env.helper token (pow10 d) r (orLatest b) ∧
    (∀ u, ((getTokenPriceBN env token d b r u).1).isSome = true) ∧
    ((getTokenOneSplitPrice env token d b r).1).isSome = true :=
  ⟨rfl, fun u => priceBN_isSome env token d b r u,
   oneSplitPrice_isSome env token d b r⟩

/-! Claims C6, C7, C10: the usdPriceCache$ map and the stablecoin
comparison. -/

/-- C6 (counterexample): the DAI address in lower case and the hardcoded
mixed-case DAI address create two independent cache entries instead of
hitting one, and the stablecoin special case does not apply to the
lower-case spelling: with failing adapters it degrades to the zero sentinel
while the exact spelling yields 10^8. -/
theorem C6_cex :
    ((getUsdTokenPrice (getUsdTokenPrice [] DAI_ADDRESS 18 none "router").2
      daiLower 18 none "router").2).length = 2 ∧
    (getTokenOneSplitPrice envAllFail daiLower 18 none "router").1 =
      some zeroValueBN ∧
    (getTokenOneSplitPrice envAllFail DAI_ADDRESS 18 none "router").1 =
      some (pow10 8) ∧
    zeroValueBN ≠ pow10 8 :=
  ⟨rfl, rfl, rfl, by decide⟩

/-- C6 (amended): token addresses are compared by exact, case-sensitive
string equality, with no lowercasing.  Distinct strings — even two casings
of one address — create two independent cache entries, and the stablecoin
special case of getTokenOneSplitPrice applies exactly to the two hardcoded
spellings. -/
theorem C6_case_sensitive (st : UsdPriceCache) (t1 t2 : String)
    (d1 d2 : Nat) (b1 b2 : Option Nat) (r1 r2 : String) (env : Env)
    (hne : t1 ≠ t2) (h1 : st.lookup t1 = none) (h2 : st.lookup t2 = none) :
    (getUsdTokenPrice (getUsdTokenPrice st t1 d1 b1 r1).2 t2 d2 b2 r2).2 =
      (t2, (getUsdTokenPrice (getUsdTokenPrice st t1 d1 b1 r1).2 t2 d2 b2 r2).1) ::
      (t1, (getUsdTokenPrice st t1 d1 b1 r1).1) :: st ∧
    (getUsdTokenPrice st t1 d1 b1 r1).1 ≠
      (getUsdTokenPrice (getUsdTokenPrice st t1 d1 b1 r1).2 t2 d2 b2 r2).1 ∧
    (∀ token d b r, getTokenOneSplitPrice env token d b r =
        (some (pow10 8), ([] : List Call)) ↔
      (token = DAI_ADDRESS ∨ token = SAI_ADDRESS)) := by
  unfold getUsdTokenPrice
  rw [h1]
  have hl : (((t1, (⟨t1, d1, b1, r1, 10000⟩ : CacheEntry)) :: st).lookup t2) =
      none := by
    have hb : (t2 == t1) = false := beq_eq_false_iff_ne.mpr (Ne.symm hne)
    simp [List.lookup, h2, hb]
  rw [hl]
  refine ⟨rfl, ?_, ?_⟩
  · intro h
    exact hne (congrArg CacheEntry.factoryToken h)
  · intro token d b r
    constructor
    · intro h
      unfold getTokenOneSplitPrice getTokenOneSplitPriceWithFeed at h
      by_contra hc
      rw [if_neg hc] at h
      exact List.cons_ne_nil _ _ (congrArg Prod.snd h)
    · intro h
      unfold getTokenOneSplitPrice getTokenOneSplitPriceWithFeed
      rw [if_pos h]

/-- C6 (amended, witness): the mixed-case and lower-case DAI spellings make
two entries and the lower-case spelling misses the special case. -/
theorem C6_witness :
    getTokenOneSplitPrice envAllFail DAI_ADDRESS 6 (some 3) "r" =
      (some (pow10 8), ([] : List Call)) :=
  ((C6_case_sensitive [] DAI_ADDRESS daiLower 18 18 none none "router"
    "router" envAllFail (by decide) rfl rfl).2.2 DAI_ADDRESS 6 (some 3)
    "r").mpr (Or.inl rfl)

/-- C7: the first getUsdTokenPrice call for a key stores exactly one new
entry, configured with the literal 10000 ms refresh interval; every call
for an already-cached key returns that same stored handle and leaves the
cache unchanged; and no call ever removes or replaces an existing entry. -/
theorem C7_cache_single_entry (st : UsdPriceCache) (token : String)
    (d : Nat) (b : Option Nat) (r : String) :
    (st.lookup token = none →
      (getUsdTokenPrice st token d b r).1.refreshInterval = 10000 ∧
      (getUsdTokenPrice st token d b r).2 =
        (token, (getUsdTokenPrice st token d b r).1) :: st ∧
      (getUsdTokenPrice st token d b r).2.lookup token =
        some (getUsdTokenPrice st token d b r).1) ∧
    (∀ e, st.lookup token = some e →
      getUsdTokenPrice st token d b r = (e, st)) ∧
    (∀ k e, st.lookup k = some e →
      (getUsdTokenPrice st token d b r).2.lookup k = some e) := by
  refine ⟨?_, ?_, ?_⟩
  · intro h
    unfold getUsdTokenPrice
    rw [h]
    exact ⟨rfl, rfl, by simp [List.lookup]⟩
  · intro e h
    unfold getUsdTokenPrice
    rw [h]
  · intro k e h
    unfold getUsdTokenPrice
    cases ht : st.lookup token with
    | some e0 => exact h
    | none =>
      have hk : k ≠ token := by
        intro hkt
        rw [hkt, ht] at h
        exact Option.noConfusion h
      have hb : (k == token) = false := beq_eq_false_iff_ne.mpr hk
      simp [List.lookup, hb, h]

/-- C7 (witness): on an empty cache, the first call for a key creates the
entry with the 10000 ms refresh interval. -/
theorem C7_witness :
    (getUsdTokenPrice [] "0xabc" 18 none "router").1.refreshInterval = 10000 :=
  ((C7_cache_single_entry [] "0xabc" 18 none "router").1 rfl).1

/-- C10: once an entry exists, a later getUsdTokenPrice call with the same
address but different decimals, block number and router returns the very
entry created by the first call, leaves the cache unchanged, and replays
the pipeline built from the FIRST call's arguments — the later arguments
have no effect. -/
theorem C10_first_call_arguments_win (st : UsdPriceCache) (token : String)
    (d1 d2 : Nat) (b1 b2 : Option Nat) (r1 r2 : String)
    (h : st.lookup token = none) :
    (getUsdTokenPrice (getUsdTokenPrice st token d1 b1 r1).2 token d2 b2 r2).1 =
      (getUsdTokenPrice st token d1 b1 r1).1 ∧
    (getUsdTokenPrice (getUsdTokenPrice st token d1 b1 r1).2 token d2 b2 r2).2 =
      (getUsdTokenPrice st token d1 b1 r1).2 ∧
    (∀ env, entryPipeline env
        (getUsdTokenPrice (getUsdTokenPrice st token d1 b1 r1).2 token d2 b2 r2).1 =
      getTokenPriceBN env token d1 b1 r1 true) := by
  unfold getUsdTokenPrice
  rw [h]
  have hl : (((token, (⟨token, d1, b1, r1, 10000⟩ : CacheEntry)) :: st).lookup
      token) = some (⟨token, d1, b1, r1, 10000⟩ : CacheEntry) := by
    simp [List.lookup]
  rw [hl]
  exact ⟨rfl, rfl, fun env => rfl⟩

/-- C10 (witness): a second call with different decimals, block and router
still replays the pipeline of the first call's arguments. -/
theorem C10_witness :
    entryPipeline envAllFail
      (getUsdTokenPrice (getUsdTokenPrice [] "0xabc" 18 none "r1").2
        "0xabc" 6 (some 5) "r2").1 =
      getTokenPriceBN envAllFail "0xabc" 18 none "r1" true :=
  (C10_first_call_arguments_win [] "0xabc" 18 6 none (some 5) "r1" "r2"
    rfl).2.2 envAllFail

/-! Claim C9: the shared reference feed and its retry policy. -/

theorem retryFrom_first_success (attempts : Nat → Option Int) :
    ∀ budget start i v, i ≤ budget →
      (∀ j, j < i → attempts (start + j) = none) →
      attempts (start + i) = some v →
      retryFrom attempts start budget = some v := by
  intro budget
  induction budget with
  | zero =>
    intro start i v hi _ hv
    have h0 : i = 0 := Nat.le_zero.mp hi
    subst h0
    simpa using hv
  | succ n ih =>
    intro start i v hi hfail hv
    cases i with
    | zero =>
      have h0 : attempts start = some v := by simpa using hv
      unfold retryFrom
      rw [h0]
    | succ i' =>
      have hst : attempts start = none := by simpa using hfail 0 (Nat.succ_pos i')
      unfold retryFrom
      rw [hst]
      refine ih (start + 1) i' v (Nat.le_of_succ_le_succ hi) ?_ ?_
      · intro j hj
        have := hfail (j + 1) (Nat.succ_lt_succ hj)
        rwa [show start + (j + 1) = start + 1 + j by omega] at this
      · rwa [show start + (i' + 1) = start + 1 + i' by omega] at hv

theorem retryFrom_all_fail (attempts : Nat → Option Int) :
    ∀ budget start, (∀ i, i ≤ budget → attempts (start + i) = none) →
      retryFrom attempts start budget = none := by
  intro budget
  induction budget with
  | zero =>
    intro start h
    simpa using h 0 (Nat.le_refl 0)
  | succ n ih =>
    intro start h
    have hst : attempts start = none := by simpa using h 0 (Nat.zero_le _)
    unfold retryFrom
    rw [hst]
    refine ih (start + 1) ?_
    intro i hi
    have := h (i + 1) (Nat.succ_le_succ hi)
    rwa [show start + (i + 1) = start + 1 + i by omega] at this

/-- C9: the reference stablecoin feed retries after a failed attempt, up to
5 resubscriptions: with at most five leading failures, the value of the
first successful attempt among attempts 0..5 is emitted and no failure is
visible; only when all six consecutive attempts fail does the subscription
surface the failure.  Every resolution of getTokenOneSplitPrice consumes
the one shared daiUsdPriceBN result rather than a private attempt
sequence. -/
theorem C9_shared_feed_retries (env : Env) :
    (∀ i v, i ≤ 5 → (∀ j, j < i → env.feedAttempts j = none) →
      env.feedAttempts i = some v → daiUsdPriceBN env = some v) ∧
    ((∀ i, i ≤ 5 → env.feedAttempts i = none) → daiUsdPriceBN env = none) ∧
    (∀ token d b r, getTokenOneSplitPrice env token d b r =
      getTokenOneSplitPriceWithFeed (daiUsdPriceBN env) env token d b r) := by
  refine ⟨?_, ?_, fun token d b r => rfl⟩
  · intro i v hi hfail hv
    exact retryFrom_first_success env.feedAttempts 5 0 i v hi
      (by simpa using hfail) (by simpa using hv)
  · intro h
    exact retryFrom_all_fail env.feedAttempts 5 0 (by simpa using h)

/-- C9 (witness): five consecutive failed attempts followed by a success on
the sixth attempt emit that success, with no failure surfaced. -/
theorem C9_witness : daiUsdPriceBN envRetryFive = some 777 :=
  (C9_shared_feed_retries envRetryFive).1 5 777 (Nat.le_refl 5)
    (by decide) rfl
